import Mathlib

/-!
Verification of the AI-Reporting core.

This file shallowly embeds the data-reporting engine of the repository
(`report_ai.py`, plus the palette helpers of `app.py`) and proves or
refutes the specification's claims about it.

Modelling conventions:
* A pandas `DataFrame` is a row count plus an ordered list of named,
  typed columns; a cell is an `Option` (missing = `none`).
* Python floats are modelled as exact rationals; `int(x)` truncation and
  the 2-decimal rounding of `round`/`format` are made explicit.
* pandas operations used by the source (`value_counts`, multi-key
  `sort_values`, `crosstab`) are modelled on lists; where pandas leaves
  tie order unspecified, the model fixes the deterministic stable order.
-/

set_option linter.unusedVariables false

namespace AIReport

/-- Truthiness of an optional Python string: `None` and `""` are falsy. -/
def pyStr (x : Option String) : Option String :=
  match x with
  | none => none
  | some s => if s.isEmpty then none else some s

/-- `str.lower()`, applied per character. -/
def lowerStr (s : String) : String := ⟨s.data.map Char.toLower⟩

/-- Is the first character list a prefix of the second? -/
def prefChars : List Char → List Char → Bool
  | [], _ => true
  | _ :: _, [] => false
  | a :: as_, b :: bs => a == b && prefChars as_ bs

/-- Python's `a in b` on strings: contiguous substring test. -/
def subChars : List Char → List Char → Bool
  | a, [] => a.isEmpty
  | a, b :: bs => prefChars a (b :: bs) || subChars a bs

/-- Substring test on `String`. -/
def substrB (a b : String) : Bool := subChars a.data b.data

/-- Lexicographic order on strings by character code (the order pandas
uses for `crosstab` labels). -/
def strLeB : List Char → List Char → Bool
  | [], _ => true
  | _ :: _, [] => false
  | a :: as_, b :: bs =>
    if a.toNat < b.toNat then true
    else if b.toNat < a.toNat then false
    else strLeB as_ bs

def strLe (a b : String) : Prop := strLeB a.data b.data = true

instance : DecidableRel strLe := fun a b => inferInstanceAs (Decidable (_ = true))

/-- Descending order on count pairs, for `value_counts`. -/
def vcLeN (p q : String × ℕ) : Prop := q.2 ≤ p.2

instance : DecidableRel vcLeN := fun p q => inferInstanceAs (Decidable (q.2 ≤ p.2))

def vcLeQ (p q : ℚ × ℕ) : Prop := q.2 ≤ p.2

instance : DecidableRel vcLeQ := fun p q => inferInstanceAs (Decidable (q.2 ≤ p.2))

/-- `series.value_counts()` on string values: the distinct values with
their multiplicities, sorted by count descending.  pandas does not
specify the order of equal counts; the model uses a stable sort over the
deduplicated value list. -/
def value_counts (vals : List String) : List (String × ℕ) :=
  List.insertionSort vcLeN (vals.dedup.map (fun v => (v, vals.count v)))

/-- `value_counts` for rational (numeric) values. -/
def value_counts_rat (vals : List ℚ) : List (ℚ × ℕ) :=
  List.insertionSort vcLeQ (vals.dedup.map (fun v => (v, vals.count v)))

/-- Column payload: a numeric dtype or a generic (string) dtype. -/
inductive ColData where
  | numeric (vals : List (Option ℚ))
  | strings (vals : List (Option String))
deriving DecidableEq

/-- A dataframe: row count and ordered named columns. -/
structure DataFrame where
  nrows : ℕ
  cols : List (String × ColData)
deriving DecidableEq

def colSize : ColData → ℕ
  | .numeric v => v.length
  | .strings v => v.length

/-- Well-formedness: unique column names, every column has `nrows` cells. -/
def DataFrame.WF (df : DataFrame) : Prop :=
  (df.cols.map Prod.fst).Nodup ∧ ∀ c ∈ df.cols, colSize c.2 = df.nrows

instance (df : DataFrame) : Decidable df.WF :=
  inferInstanceAs (Decidable (_ ∧ _))

/-- `pick_numeric_columns` (report_ai.py):
`df.select_dtypes(include="number").columns.tolist()`. -/
def pick_numeric_columns (df : DataFrame) : List String :=
  df.cols.filterMap (fun c =>
    match c.2 with
    | .numeric _ => some c.1
    | .strings _ => none)

/-- `pick_non_numeric_columns` (report_ai.py). -/
def pick_non_numeric_columns (df : DataFrame) : List String :=
  df.cols.filterMap (fun c =>
    match c.2 with
    | .numeric _ => none
    | .strings _ => some c.1)

/-- `df[name]`, as an optional column. -/
def getCol (df : DataFrame) (name : String) : Option ColData :=
  (df.cols.find? (fun c => c.1 == name)).map Prod.snd

/-- Values of a non-numeric column (`[]` if absent or numeric; the engine
reads string columns through this only after classifying them). -/
def getStrVals (df : DataFrame) (name : String) : List (Option String) :=
  match getCol df name with
  | some (.strings v) => v
  | _ => []

/-- Values of a numeric column (`[]` if absent or non-numeric). -/
def getNumVals (df : DataFrame) (name : String) : List (Option ℚ) :=
  match getCol df name with
  | some (.numeric v) => v
  | _ => []

/-- `is_text_like` (report_ai.py): the mean length of the non-missing
values is at least 30; `30 * count ≤ sum` avoids the division. -/
def is_text_like (vals : List (Option String)) : Bool :=
  let s := vals.filterMap id
  if s.isEmpty then false
  else decide (30 * s.length ≤ (s.map String.length).sum)

/-- `.astype("string").fillna("Missing")`. -/
def fillna_missing (vals : List (Option String)) : List String :=
  vals.map (fun v => v.getD "Missing")

/-- Round to the nearest integer, ties to even (the rounding of Python's
`round` and of `format`, modelled on exact rationals). -/
def rhe (q : ℚ) : ℤ :=
  let f := ⌊q⌋
  let r := q - (f : ℚ)
  if r < 1 / 2 then f
  else if 1 / 2 < r then f + 1
  else if f % 2 = 0 then f else f + 1

/-- `round(x, 2)`. -/
def round2 (q : ℚ) : ℚ := (rhe (q * 100) : ℚ) / 100

/-- Count of missing cells in a column. -/
def missingCount : ColData → ℕ
  | .numeric v => v.countP (fun x => x.isNone)
  | .strings v => v.countP (fun x => x.isNone)

/-- `series.nunique(dropna=True)`. -/
def nuniqueDropna : ColData → ℕ
  | .numeric v => (v.filterMap id).dedup.length
  | .strings v => (v.filterMap id).dedup.length

/-- Most frequent value with count, `series.value_counts(dropna=True)`
head.  `str()` of a numeric cell is modelled by the canonical rational
rendering; only display fields that no claim inspects use it. -/
def topPairOf : ColData → Option (String × ℕ)
  | .strings v => (value_counts (v.filterMap id)).head?
  | .numeric v =>
    ((value_counts_rat (v.filterMap id)).head?).map (fun p => (toString p.1, p.2))

/-- One row of the quality table. -/
structure QualityRow where
  column : String
  missing : ℕ
  missing_percent : ℚ
  unique : ℕ
  top_value : Option String
  top_count : ℕ
deriving DecidableEq

def mkQualityRow (total : ℕ) (c : String × ColData) : QualityRow :=
  let missing := missingCount c.2
  { column := c.1
    missing := missing
    missing_percent :=
      if total = 0 then 0 else round2 ((missing : ℚ) / (total : ℚ) * 100)
    unique := nuniqueDropna c.2
    top_value := (topPairOf c.2).map Prod.fst
    top_count := ((topPairOf c.2).map Prod.snd).getD 0 }

/-- `sort_values(["missing", "unique"], ascending=[False, False])`:
lexicographic, both keys descending; pandas multi-key sort is stable. -/
def qualityLe (a b : QualityRow) : Prop :=
  b.missing < a.missing ∨ (a.missing = b.missing ∧ b.unique ≤ a.unique)

instance : DecidableRel qualityLe := fun a b =>
  inferInstanceAs (Decidable (_ ∨ _))

/-- `column_quality_summary` (report_ai.py).  On a dataframe with no
columns the source builds `pd.DataFrame([])` and then calls
`sort_values(["missing", "unique"])`, which raises a `KeyError`; that is
the error case here. -/
def column_quality_summary (df : DataFrame) : Except String (List QualityRow) :=
  let details := df.cols.map (mkQualityRow df.nrows)
  if details.isEmpty then .error "KeyError: missing"
  else .ok (List.insertionSort qualityLe details)

/-- Linear-interpolation percentile of an ascending-sorted list (numpy's
default, used by `describe` and `median`). -/
def percentileSorted (s : List ℚ) (p : ℚ) : Option ℚ :=
  match s with
  | [] => none
  | _ :: _ =>
    let h : ℚ := ((s.length : ℚ) - 1) * p
    let f : ℕ := (⌊h⌋).toNat
    let x0 := s.getD f 0
    let x1 := s.getD (f + 1) x0
    some (x0 + (h - (f : ℚ)) * (x1 - x0))

/-- One row of the numeric stats table (`describe`).  pandas stores the
standard deviation; its square is stored here because the square root is
irrational in general — no claim reads this field. -/
structure NumRow where
  column : String
  count : ℕ
  mean : Option ℚ
  std_sq : Option ℚ
  min : Option ℚ
  q25 : Option ℚ
  median : Option ℚ
  q75 : Option ℚ
  max : Option ℚ
deriving DecidableEq

def mkNumRow (name : String) (vals : List (Option ℚ)) : NumRow :=
  let s := vals.filterMap id
  let sorted := List.insertionSort (fun a b : ℚ => a ≤ b) s
  let n := s.length
  { column := name
    count := n
    mean := if n = 0 then none else some (s.sum / (n : ℚ))
    std_sq :=
      if n ≤ 1 then none
      else some (((s.map (fun x => (x - s.sum / (n : ℚ)) ^ 2)).sum) / ((n : ℚ) - 1))
    min := sorted.head?
    q25 := percentileSorted sorted (1 / 4)
    median := percentileSorted sorted (1 / 2)
    q75 := percentileSorted sorted (3 / 4)
    max := sorted.getLast? }

/-- `numeric_stats` (report_ai.py): empty table when there are no numeric
columns, otherwise one `describe` row per numeric column. -/
def numeric_stats (df : DataFrame) (numeric_cols : List String) : List NumRow :=
  if numeric_cols.isEmpty then []
  else numeric_cols.map (fun c => mkNumRow c (getNumVals df c))

/-- One row of the categorical stats table. -/
structure CatRow where
  column : String
  unique_values : ℕ
  top_value : Option String
  top_count : ℕ
  top_values : List (String × ℕ)
deriving DecidableEq

/-- `categorical_stats` (report_ai.py). -/
def categorical_stats (df : DataFrame) (cat_cols : List String) (top_n : ℕ) : List CatRow :=
  cat_cols.map (fun col =>
    let s := fillna_missing (getStrVals df col)
    let vc := value_counts s
    { column := col
      unique_values := vc.length
      top_value := (vc.head?).map Prod.fst
      top_count := ((vc.head?).map Prod.snd).getD 0
      top_values := vc.take top_n })

/-- The data transform of `categorical_volume_chart` (report_ai.py):
value counts with missing as "Missing", truncated to `max_categories`. -/
def categorical_volume_chart (vals : List (Option String)) (max_categories : ℕ) :
    List (String × ℕ) :=
  (value_counts (fillna_missing vals)).take max_categories

/-- A contingency table: sorted row labels, sorted column labels, and the
count matrix in that label order. -/
structure CrossTab where
  rowLabels : List String
  colLabels : List String
  cells : List (List ℕ)
deriving DecidableEq

def sortLabels (l : List String) : List String := List.insertionSort strLe l

/-- `pd.crosstab` of the paired values, with lexicographically sorted
labels. -/
def crosstab (pairs : List (String × String)) : CrossTab :=
  let r := sortLabels (pairs.map Prod.fst).dedup
  let c := sortLabels (pairs.map Prod.snd).dedup
  ⟨r, c,
    r.map (fun la => c.map (fun lb => pairs.countP (fun p => p.1 == la && p.2 == lb)))⟩

/-- `categorical_relationship_heatmap` (report_ai.py), applied to the two
selected columns' values (the caller does the column lookup): keep each
column's top `max_categories` values, replace every other value by
"Other", and cross-tabulate the result. -/
def categorical_relationship_heatmap (a_raw b_raw : List (Option String))
    (max_categories : ℕ) : CrossTab :=
  let a := fillna_missing a_raw
  let b := fillna_missing b_raw
  let top_a := ((value_counts a).take max_categories).map Prod.fst
  let top_b := ((value_counts b).take max_categories).map Prod.fst
  let a_filtered := a.map (fun v => if v ∈ top_a then v else "Other")
  let b_filtered := b.map (fun v => if v ∈ top_b then v else "Other")
  crosstab (a_filtered.zip b_filtered)

/-- The data transform of `text_length_chart` (report_ai.py). -/
def text_length_chart (vals : List (Option String)) : List ℕ :=
  vals.map (fun v => (v.getD "").length)

/-- The `for c in cols: if c.lower() in lowered: return c` loop of the
primary-column pickers. -/
def scanInstructions (lowered : String) : List String → Option String
  | [] => none
  | c :: rest =>
    if substrB (lowerStr c) lowered then some c else scanInstructions lowered rest

/-- Fallback of the pickers: instruction-matching column, else first. -/
def pickDefault (cols : List String) (instructions : String) : Option String :=
  match scanInstructions (lowerStr instructions) cols with
  | some c => some c
  | none => cols.head?

/-- `pick_primary_numeric` (report_ai.py). -/
def pick_primary_numeric (numeric_cols : List String) (user_choice : Option String)
    (instructions : String) : Option String :=
  match pyStr user_choice with
  | some s => if s ∈ numeric_cols then some s else pickDefault numeric_cols instructions
  | none => pickDefault numeric_cols instructions

/-- `pick_primary_category` (report_ai.py). -/
def pick_primary_category (cat_cols : List String) (user_choice : Option String)
    (instructions : String) : Option String :=
  match pyStr user_choice with
  | some s => if s ∈ cat_cols then some s else pickDefault cat_cols instructions
  | none => pickDefault cat_cols instructions

/-- Hex digit value of a character, if any. -/
def hexDigit? (c : Char) : Option ℕ :=
  if '0' ≤ c ∧ c ≤ '9' then some (c.toNat - '0'.toNat)
  else if 'a' ≤ c ∧ c ≤ 'f' then some (c.toNat - 'a'.toNat + 10)
  else if 'A' ≤ c ∧ c ≤ 'F' then some (c.toNat - 'A'.toNat + 10)
  else none

def parseHexAux : ℕ → List Char → Option ℕ
  | acc, [] => some acc
  | acc, c :: rest =>
    match hexDigit? c with
    | some d => parseHexAux (16 * acc + d) rest
    | none => none

/-- Python's `int(s, 16)` on a plain digit string: fails on the empty
string or any non-hex character. -/
def parseHex (l : List Char) : Option ℕ :=
  match l with
  | [] => none
  | _ :: _ => parseHexAux 0 l

/-- `hex_to_rgb` (app.py): strip leading '#' characters, expand the
3-digit form, parse the slices `[0:2]`, `[2:4]`, `[4:6]`; `none` models
the exceptions the callers catch. -/
def hex_to_rgb (h : String) : Option (ℤ × ℤ × ℤ) :=
  let t := h.data.dropWhile (fun c => c == '#')
  let t2 := if t.length = 3 then (t.map (fun c => [c, c])).flatten else t
  match parseHex (t2.take 2), parseHex ((t2.drop 2).take 2), parseHex ((t2.drop 4).take 2) with
  | some r, some g, some b => some ((r : ℤ), (g : ℤ), (b : ℤ))
  | _, _, _ => none

/-- Python `int()` truncation (toward zero) of the exact fraction
`num / den`, for `den > 0`. -/
def pyTruncFrac (num den : ℤ) : ℤ :=
  if 0 ≤ num then num.ediv den else -((-num).ediv den)

/-- One channel of `mix` (app.py): `int(a + (b - a) * t)` at `t = tn/td`,
computed exactly (the source's float arithmetic is modelled as exact
rational arithmetic). -/
def mixChan (a b tn td : ℤ) : ℤ := pyTruncFrac (a * td + (b - a) * tn) td

/-- `mix` (app.py) on RGB triples. -/
def mix (a b : ℤ × ℤ × ℤ) (tn td : ℤ) : ℤ × ℤ × ℤ :=
  (mixChan a.1 b.1 tn td, mixChan a.2.1 b.2.1 tn td, mixChan a.2.2 b.2.2 tn td)

/-- The lowercase hex digit character for a value below 16. -/
def hexDigitChar (d : ℕ) : Char :=
  if d < 10 then Char.ofNat ('0'.toNat + d) else Char.ofNat ('a'.toNat + (d - 10))

def natToHexAux : ℕ → ℕ → List Char
  | 0, _ => []
  | _ + 1, 0 => []
  | fuel + 1, n + 1 =>
    natToHexAux fuel ((n + 1) / 16) ++ [hexDigitChar ((n + 1) % 16)]

/-- Lowercase hex rendering of a natural number. -/
def natToHex (n : ℕ) : List Char :=
  if n = 0 then ['0'] else natToHexAux (n + 1) n

/-- `f"{v:02x}"`: two-character zero-padded lowercase hex. -/
def hex02 (v : ℤ) : String :=
  if v < 0 then ⟨'-' :: natToHex (-v).toNat⟩
  else
    let d := natToHex v.toNat
    ⟨if d.length = 1 then '0' :: d else d⟩

/-- `rgb_to_hex` (app.py). -/
def rgb_to_hex (rgb : ℤ × ℤ × ℤ) : String :=
  "#" ++ hex02 rgb.1 ++ hex02 rgb.2.1 ++ hex02 rgb.2.2

/-- The fallback base color of `shades` (app.py). -/
def defaultBase : ℤ × ℤ × ℤ := (59, 130, 246)

/-- The `try: hex_to_rgb(...) except: (59, 130, 246)` of `shades`. -/
def baseOf (base_hex : String) : ℤ × ℤ × ℤ :=
  (hex_to_rgb base_hex).getD defaultBase

/-- Interpolation positions of `shades`: in dark mode
`0.05 + (i / max(1, n-1)) * 0.75`, otherwise
`0.20 + (i / max(1, n-1)) * 0.70`, as an exact fraction with denominator
`20 * max(1, n-1)`. -/
def tFrac (dark : Bool) (i n : ℕ) : ℤ × ℤ :=
  let m : ℤ := ((max 1 (n - 1) : ℕ) : ℤ)
  if dark then (m + 15 * (i : ℤ), 20 * m) else (4 * m + 14 * (i : ℤ), 20 * m)

/-- The RGB triples computed by `shades` (app.py) before hex rendering. -/
def shades_rgbs (base_hex : String) (n : ℕ) (dark_mode : Bool) : List (ℤ × ℤ × ℤ) :=
  let base := baseOf base_hex
  (List.range n).map (fun i =>
    let t := tFrac dark_mode i n
    if dark_mode then mix base (245, 245, 245) t.1 t.2
    else mix (250, 250, 250) base t.1 t.2)

/-- `shades` (app.py): the palette generator. -/
def shades (base_hex : String) (n : ℕ) (dark_mode : Bool) : List String :=
  (shades_rgbs base_hex n dark_mode).map rgb_to_hex

/-- Thousands grouping of a reversed digit list (fuel-driven). -/
def commaGroupRev : ℕ → List Char → List Char
  | _, [] => []
  | 0, l => l
  | fuel + 1, l => if l.length ≤ 3 then l else l.take 3 ++ ',' :: commaGroupRev fuel (l.drop 3)

/-- Insert thousands separators into a digit string. -/
def commaGroup (s : String) : String :=
  ⟨(commaGroupRev s.length s.data.reverse).reverse⟩

/-- The formatting of `safe_number` (report_ai.py): `f"{x:,.2f}"` when
`abs(x) >= 1000`, else `f"{x:.2f}"`; two decimals, half-even rounding. -/
def formatNumber (q : ℚ) : String :=
  let n := rhe (q * 100)
  let m := n.natAbs
  let ip := m / 100
  let fp := m % 100
  let ipStr := if 1000 ≤ |q| then commaGroup (toString ip) else toString ip
  (if n < 0 then "-" else "") ++ ipStr ++ "." ++ (if fp < 10 then "0" else "") ++ toString fp

/-- `safe_number` (report_ai.py): `None` for missing, else the display
string. -/
def safe_number (x : Option ℚ) : Option String := x.map formatNumber

/-- `series.mean()` (missing skipped; `None` when empty). -/
def pymean (vals : List (Option ℚ)) : Option ℚ :=
  let s := vals.filterMap id
  if s.isEmpty then none else some (s.sum / (s.length : ℚ))

/-- `series.median()`. -/
def pymedian (vals : List (Option ℚ)) : Option ℚ :=
  percentileSorted (List.insertionSort (fun a b : ℚ => a ≤ b) (vals.filterMap id)) (1 / 2)

/-- `series.min()`. -/
def pymin (vals : List (Option ℚ)) : Option ℚ :=
  (List.insertionSort (fun a b : ℚ => a ≤ b) (vals.filterMap id)).head?

/-- `series.max()`. -/
def pymax (vals : List (Option ℚ)) : Option ℚ :=
  (List.insertionSort (fun a b : ℚ => a ≤ b) (vals.filterMap id)).getLast?

/-- The summary record of `build_report_summary` (report_ai.py). -/
structure Summary where
  primary_numeric_column : Option String
  primary_mean : Option String
  primary_median : Option String
  primary_min : Option String
  primary_max : Option String
  primary_categorical_column : Option String
  top_category_label : Option String
  top_category_count : Option ℕ
  total_missing_cells : ℕ
deriving DecidableEq

/-- `build_report_summary` (report_ai.py). -/
def build_report_summary (df : DataFrame) (numeric_cols cat_cols : List String)
    (primary_numeric primary_cat : Option String) : Summary :=
  let numPart :
      Option String × Option String × Option String × Option String × Option String :=
    match pyStr primary_numeric with
    | some p =>
      let series := getNumVals df p
      (some p, safe_number (pymean series), safe_number (pymedian series),
        safe_number (pymin series), safe_number (pymax series))
    | none => (none, none, none, none, none)
  let catPart : Option String × Option String × Option ℕ :=
    match pyStr primary_cat with
    | some p =>
      let vc := value_counts (fillna_missing (getStrVals df p))
      (some p, (vc.head?).map Prod.fst, some (((vc.head?).map Prod.snd).getD 0))
    | none => (none, none, none)
  { primary_numeric_column := numPart.1
    primary_mean := numPart.2.1
    primary_median := numPart.2.2.1
    primary_min := numPart.2.2.2.1
    primary_max := numPart.2.2.2.2
    primary_categorical_column := catPart.1
    top_category_label := catPart.2.1
    top_category_count := catPart.2.2
    total_missing_cells := (df.cols.map (fun c => missingCount c.2)).sum }

/-- The tag of an entry in the visuals list; `key` below renders the
string key the source pairs with each figure. -/
inductive VisName where
  | missing_values
  | numeric_distribution
  | numeric_comparison_scatter
  | category_volume (col : String)
  | category_relationship_heatmap
  | text_length (col : String)
deriving DecidableEq

def VisName.key : VisName → String
  | .missing_values => "missing_values"
  | .numeric_distribution => "numeric_distribution"
  | .numeric_comparison_scatter => "numeric_comparison_scatter"
  | .category_volume col => "category_volume_" ++ col
  | .category_relationship_heatmap => "category_relationship_heatmap"
  | .text_length col => "text_length_" ++ col

/-- A chart figure, carrying the data the source hands to plotly. -/
inductive Fig where
  | missingBar (data : List (String × ℕ))
  | histogram (col : String) (vals : List (Option ℚ))
  | scatter (x y : String) (xs ys : List (Option ℚ))
  | volumeBar (col : String) (counts : List (String × ℕ))
  | heatmap (a b : String) (ct : CrossTab)
  | lengthHist (col : String) (lengths : List ℕ)
deriving DecidableEq

/-- The `user_choices` dict: string keys to optional string values. -/
abbrev UserChoices := List (String × Option String)

/-- `user_choices.get(key)`. -/
def dictGet (uc : UserChoices) (k : String) : Option String :=
  match uc.find? (fun p => p.1 == k) with
  | some p => p.2
  | none => none

/-- Single-key descending sort used for the missing-values chart. -/
def missLe (a b : QualityRow) : Prop := b.missing ≤ a.missing

instance : DecidableRel missLe := fun a b => inferInstanceAs (Decidable (_ ≤ _))

/-- The missing-values chart block of `build_visuals`. -/
def missingPart (quality : List QualityRow) : List (VisName × Fig) :=
  if 0 < (quality.map (fun r => r.missing)).sum then
    [(.missing_values,
      .missingBar (((List.insertionSort missLe quality).take 25).map
        (fun r => (r.column, r.missing))))]
  else []

/-- The primary-numeric histogram block of `build_visuals`. -/
def distPart (df : DataFrame) (primary_numeric : Option String) : List (VisName × Fig) :=
  match pyStr primary_numeric with
  | some p => [(.numeric_distribution, .histogram p (getNumVals df p))]
  | none => []

/-- The numeric-comparison scatter block of `build_visuals`. -/
def scatterPart (df : DataFrame) (numeric_cols : List String) (uc : UserChoices) :
    List (VisName × Fig) :=
  match pyStr (dictGet uc "compare_numeric_x"), pyStr (dictGet uc "compare_numeric_y") with
  | some x, some y =>
    if x ∈ numeric_cols ∧ y ∈ numeric_cols ∧ x ≠ y then
      [(.numeric_comparison_scatter, .scatter x y (getNumVals df x) (getNumVals df y))]
    else []
  | _, _ => []

/-- The category-volume block of `build_visuals`: the chosen/inferred
column, else up to two automatic charts. -/
def volumePart (df : DataFrame) (cat_cols : List String) (primary_cat : Option String)
    (max_categories : ℕ) : List (VisName × Fig) :=
  match pyStr primary_cat with
  | some c =>
    [(.category_volume c, .volumeBar c (categorical_volume_chart (getStrVals df c) max_categories))]
  | none =>
    (cat_cols.take 2).map (fun col =>
      (.category_volume col, .volumeBar col (categorical_volume_chart (getStrVals df col) max_categories)))

/-- The fallback heatmap on the first two categorical columns. -/
def heatFallback (df : DataFrame) (cat_cols : List String) (max_categories : ℕ) :
    List (VisName × Fig) :=
  match cat_cols with
  | c1 :: c2 :: _ =>
    [(.category_relationship_heatmap,
      .heatmap c1 c2 (categorical_relationship_heatmap (getStrVals df c1) (getStrVals df c2)
        (min max_categories 15)))]
  | _ => []

/-- The category-relationship block of `build_visuals`: the chosen pair
when valid and distinct, otherwise the fallback. -/
def heatPart (df : DataFrame) (cat_cols : List String) (uc : UserChoices)
    (max_categories : ℕ) : List (VisName × Fig) :=
  match pyStr (dictGet uc "compare_category_a"), pyStr (dictGet uc "compare_category_b") with
  | some a, some b =>
    if a ∈ cat_cols ∧ b ∈ cat_cols ∧ a ≠ b then
      [(.category_relationship_heatmap,
        .heatmap a b (categorical_relationship_heatmap (getStrVals df a) (getStrVals df b)
          (min max_categories 15)))]
    else heatFallback df cat_cols max_categories
  | _, _ => heatFallback df cat_cols max_categories

/-- The text-length block of `build_visuals`. -/
def textPart (df : DataFrame) (text_like_cols : List String) : List (VisName × Fig) :=
  match text_like_cols with
  | t :: _ => [(.text_length t, .lengthHist t (text_length_chart (getStrVals df t)))]
  | [] => []

/-- The classifier split inside `build_visuals`: non-numeric columns are
text-like or categorical, in order. -/
def splitCats (df : DataFrame) : List String × List String :=
  (pick_non_numeric_columns df).partition (fun c => is_text_like (getStrVals df c))

/-- The five return values of `build_visuals`. -/
structure BuildOutput where
  report_summary : Summary
  visuals : List (VisName × Fig)
  quality_df : List QualityRow
  numeric_df : List NumRow
  categorical_df : List CatRow
deriving DecidableEq

/-- Everything `build_visuals` computes after `column_quality_summary`
has succeeded. -/
def assembleOutput (df : DataFrame) (instructions : String) (user_choices : UserChoices)
    (max_categories : ℕ) (quality_df : List QualityRow) : BuildOutput :=
  let numeric_cols := pick_numeric_columns df
  let split := splitCats df
  let text_like_cols := split.1
  let cat_cols := split.2
  let numeric_df := numeric_stats df numeric_cols
  let categorical_df := categorical_stats df cat_cols 5
  let primary_numeric :=
    pick_primary_numeric numeric_cols (dictGet user_choices "primary_numeric") instructions
  let primary_cat :=
    pick_primary_category cat_cols (dictGet user_choices "category_volume_col") instructions
  let report_summary := build_report_summary df numeric_cols cat_cols primary_numeric primary_cat
  let visuals :=
    missingPart quality_df ++ distPart df primary_numeric
      ++ scatterPart df numeric_cols user_choices
      ++ volumePart df cat_cols primary_cat max_categories
      ++ heatPart df cat_cols user_choices max_categories
      ++ textPart df text_like_cols
  ⟨report_summary, visuals, quality_df, numeric_df, categorical_df⟩

/-- `build_visuals` (report_ai.py).  The only failure path is the
`KeyError` of `column_quality_summary` on a column-less dataframe. -/
def build_visuals (df : DataFrame) (report_type : String) (instructions : String)
    (user_choices : UserChoices) (max_categories : ℕ) : Except String BuildOutput :=
  match column_quality_summary df with
  | .error e => .error e
  | .ok quality_df => .ok (assembleOutput df instructions user_choices max_categories quality_df)

/-- The visuals list of a successful `build_visuals` call. -/
def visualsOf (df : DataFrame) (report_type instructions : String) (uc : UserChoices)
    (max_categories : ℕ) : List (VisName × Fig) :=
  match build_visuals df report_type instructions uc max_categories with
  | .ok out => out.visuals
  | .error _ => []

/-- The quality table of a successful `column_quality_summary` call. -/
def qualityRows (df : DataFrame) : List QualityRow :=
  match column_quality_summary df with
  | .ok rows => rows
  | .error _ => []

/-- The chosen-pair applicability test of the category-relationship block
(`a and b and a in cat_cols and b in cat_cols and a != b`). -/
def heatChosen (cat_cols : List String) (uc : UserChoices) : Prop :=
  ∃ a b, pyStr (dictGet uc "compare_category_a") = some a ∧
    pyStr (dictGet uc "compare_category_b") = some b ∧
    a ∈ cat_cols ∧ b ∈ cat_cols ∧ a ≠ b

/-- The applicability test of the numeric-comparison scatter block. -/
def scatterChosen (numeric_cols : List String) (uc : UserChoices) : Prop :=
  ∃ x y, pyStr (dictGet uc "compare_numeric_x") = some x ∧
    pyStr (dictGet uc "compare_numeric_y") = some y ∧
    x ∈ numeric_cols ∧ y ∈ numeric_cols ∧ x ≠ y

end AIReport

namespace SpecModel

open AIReport

/-- Modelled from the spec: the `user_choices` configuration object of
section 6 of the spec (the chart-selector iteration that `app.py` calls
with these keys is not among the source files). -/
structure Choices where
  primary_numeric : Option String
  scatter_x : Option String
  scatter_y : Option String
  category_volume : Option String
  category_a : Option String
  category_b : Option String
  radial_category_col : Option String
  radial_categories : List String
  radial_mode : String
  radial_value_col : Option String
deriving DecidableEq

/-- Modelled from the spec: the `ChartSpec` tagged variant of section 3. -/
inductive ChartSpec where
  | histogram (col : String)
  | scatter (x y : String)
  | categoryVolume (col : String) (counts : List (String × ℕ))
  | categoryRelationship (a b : String) (ct : CrossTab)
  | radialBreakdown (slices : List (String × ℚ))
deriving DecidableEq

/-- The spec's classification: categorical = non-numeric and not
text-like (same classifier as the source core). -/
def cat_cols (df : DataFrame) : List String := (splitCats df).2

/-- Descending order on radial slices. -/
def rSliceGe (p q : String × ℚ) : Prop := q.2 ≤ p.2

instance : DecidableRel rSliceGe := fun p q => inferInstanceAs (Decidable (q.2 ≤ p.2))

instance : IsTotal (String × ℚ) rSliceGe := ⟨fun a b => le_total b.2 a.2⟩

instance : IsTrans (String × ℚ) rSliceGe := ⟨fun _ _ _ h1 h2 => le_trans h2 h1⟩

/-- Modelled from the spec: (section 4.4, RadialBreakdown) applicable iff
a categorical column is chosen; mode `count` takes the value counts of
the column (missing as the "Missing" sentinel), mode `sum` sums a chosen
numeric column grouped by category; an optional allow-list filters the
column before aggregation; the result is sorted descending by value and
truncated to `max_categories`.  `none` models the fail-silent omission of
section 4.4 for invalid column or mode choices. -/
def radial_slices (df : DataFrame) (ch : Choices) (max_categories : ℕ) :
    Option (List (String × ℚ)) :=
  match ch.radial_category_col with
  | none => none
  | some c =>
    if c ∈ cat_cols df then
      if ch.radial_mode = "count" then
        let s := fillna_missing (getStrVals df c)
        let s := if ch.radial_categories.isEmpty then s
          else s.filter (fun v => v ∈ ch.radial_categories)
        let counts := s.dedup.map (fun v => (v, (s.count v : ℚ)))
        some ((List.insertionSort rSliceGe counts).take max_categories)
      else if ch.radial_mode = "sum" then
        match ch.radial_value_col with
        | some v =>
          if v ∈ pick_numeric_columns df then
            let pairs := (fillna_missing (getStrVals df c)).zip (getNumVals df v)
            let pairs := if ch.radial_categories.isEmpty then pairs
              else pairs.filter (fun p => p.1 ∈ ch.radial_categories)
            let groups := (pairs.map Prod.fst).dedup.map (fun cat =>
              (cat, ((pairs.filter (fun p => p.1 == cat)).filterMap Prod.snd).sum))
            some ((List.insertionSort rSliceGe groups).take max_categories)
          else none
        | none => none
      else none
    else none

/-- Modelled from the spec: (section 6) the primary numeric column — the
user's choice when it is a numeric column, else the first numeric
column. -/
def sPrimary (df : DataFrame) (ch : Choices) : Option String :=
  match ch.primary_numeric with
  | some p => if p ∈ pick_numeric_columns df then some p else (pick_numeric_columns df).head?
  | none => (pick_numeric_columns df).head?

/-- Modelled from the spec: (section 4.4) the Histogram chart. -/
def sHist (df : DataFrame) (ch : Choices) : List (String × ChartSpec) :=
  match sPrimary df ch with
  | some p => [("numeric_distribution", ChartSpec.histogram p)]
  | none => []

/-- Modelled from the spec: (section 4.4) the Scatter chart. -/
def sScat (df : DataFrame) (ch : Choices) : List (String × ChartSpec) :=
  match ch.scatter_x, ch.scatter_y with
  | some x, some y =>
    if x ∈ pick_numeric_columns df ∧ y ∈ pick_numeric_columns df ∧ x ≠ y then
      [("numeric_scatter", ChartSpec.scatter x y)]
    else []
  | _, _ => []

/-- Modelled from the spec: (section 4.4) the CategoryVolume chart. -/
def sVol (df : DataFrame) (ch : Choices) (max_categories : ℕ) : List (String × ChartSpec) :=
  match ch.category_volume with
  | some c =>
    if c ∈ cat_cols df then
      [("category_volume",
        ChartSpec.categoryVolume c (categorical_volume_chart (getStrVals df c) max_categories))]
    else []
  | none => []

/-- Modelled from the spec: (section 4.4, CategoryRelationship) two
distinct categorical columns; out-of-window values are dropped from the
cross-tab, per the spec's words. -/
def sHeat (df : DataFrame) (ch : Choices) (max_categories : ℕ) : List (String × ChartSpec) :=
  match ch.category_a, ch.category_b with
  | some a, some b =>
    if a ∈ cat_cols df ∧ b ∈ cat_cols df ∧ a ≠ b then
      let av := fillna_missing (getStrVals df a)
      let bv := fillna_missing (getStrVals df b)
      let top_a := ((value_counts av).take max_categories).map Prod.fst
      let top_b := ((value_counts bv).take max_categories).map Prod.fst
      let kept := (av.zip bv).filter (fun p => p.1 ∈ top_a ∧ p.2 ∈ top_b)
      [("category_heatmap", ChartSpec.categoryRelationship a b (crosstab kept))]
    else []
  | _, _ => []

/-- Modelled from the spec: (section 4.4) the RadialBreakdown chart. -/
def sRadial (df : DataFrame) (ch : Choices) (max_categories : ℕ) : List (String × ChartSpec) :=
  match radial_slices df ch max_categories with
  | some sl => [("radial_donut", ChartSpec.radialBreakdown sl)]
  | none => []

/-- Modelled from the spec: (sections 4.4 and 6) the chart selector whose
iteration `app.py` calls; each chart kind is decided by its own
applicability predicate, independently.  The string keys follow the
lookups in the caller `app.py` (`"radial_donut"`, `"numeric_scatter"`,
`"category_volume"`, `"category_heatmap"`, `"numeric_distribution"`).
Color assignment is per spec and not modelled, since no claim reads it. -/
def select (df : DataFrame) (ch : Choices) (max_categories : ℕ) :
    List (String × ChartSpec) :=
  sHist df ch ++ sScat df ch ++ sVol df ch max_categories
    ++ sHeat df ch max_categories ++ sRadial df ch max_categories

/-- `get_fig` (app.py): first chart stored under a key. -/
def getChart (l : List (String × ChartSpec)) (k : String) : Option ChartSpec :=
  (l.find? (fun p => p.1 == k)).map Prod.snd

/-- Applicability of the RadialBreakdown chart in the spec model: a
categorical column is chosen, and the mode (with its value column, for
`sum`) is valid. -/
def radialApplicable (df : DataFrame) (ch : Choices) : Prop :=
  ∃ c, ch.radial_category_col = some c ∧ c ∈ cat_cols df ∧
    (ch.radial_mode = "count" ∨
      (ch.radial_mode = "sum" ∧
        ∃ v, ch.radial_value_col = some v ∧ v ∈ pick_numeric_columns df))

end SpecModel

open AIReport SpecModel

/-- The picker behaviour as claimed: the first column whose lowercased
name occurs in the lowercased instructions, else the first column (none
when there is none). -/
def firstMatchOrHead (cols : List String) (instructions : String) : Option String :=
  match cols.find? (fun c => substrB (lowerStr c) (lowerStr instructions)) with
  | some c => some c
  | none => cols.head?

/-- The color the `shades` interpolation starts from (at `t = 0`): the
base in dark mode, the near-white anchor otherwise. -/
def paletteStart (base_hex : String) (dark : Bool) : ℤ × ℤ × ℤ :=
  if dark then baseOf base_hex else (250, 250, 250)

/-- The color the `shades` interpolation moves toward (at `t = 1`). -/
def paletteEnd (base_hex : String) (dark : Bool) : ℤ × ℤ × ℤ :=
  if dark then (245, 245, 245) else baseOf base_hex

/-- The `i`-th RGB triple of the palette. -/
def shadeAt (base_hex : String) (n : ℕ) (dark : Bool) (i : ℕ) : ℤ × ℤ × ℤ :=
  (shades_rgbs base_hex n dark).getD i (0, 0, 0)

lemma scanInstructions_eq_find? (lowered : String) (cols : List String) :
    scanInstructions lowered cols = cols.find? (fun c => substrB (lowerStr c) lowered) := by
  induction cols with
  | nil => rfl
  | cons c rest ih =>
    by_cases h : substrB (lowerStr c) lowered
    · simp [scanInstructions, h]
    · simp [scanInstructions, h, ih]

lemma pickDefault_eq_firstMatchOrHead (cols : List String) (instructions : String) :
    pickDefault cols instructions = firstMatchOrHead cols instructions := by
  simp [pickDefault, firstMatchOrHead, scanInstructions_eq_find?]

/-- C10: when the user's choice of primary numeric (resp. categorical)
column is absent or not among the classified columns of that kind, the
picker returns the first column of that kind whose lowercased name occurs
in the lowercased instructions, and only when none matches the first such
column (`none` when the list is empty). -/
theorem c10_picker_fallback (numeric_cols cat_cols : List String)
    (ucN ucC : Option String) (instructions : String)
    (hN : ∀ s, ucN = some s → s ∉ numeric_cols)
    (hC : ∀ s, ucC = some s → s ∉ cat_cols) :
    pick_primary_numeric numeric_cols ucN instructions = firstMatchOrHead numeric_cols instructions ∧
    pick_primary_category cat_cols ucC instructions = firstMatchOrHead cat_cols instructions := by
  constructor
  · match hu : ucN with
    | none => simp [pick_primary_numeric, pyStr, pickDefault_eq_firstMatchOrHead]
    | some s =>
      by_cases hs : s.isEmpty
      · simp [pick_primary_numeric, pyStr, hs, pickDefault_eq_firstMatchOrHead]
      · have hmem : s ∉ numeric_cols := hN s rfl
        simp [pick_primary_numeric, pyStr, hs, hmem, pickDefault_eq_firstMatchOrHead]
  · match hu : ucC with
    | none => simp [pick_primary_category, pyStr, pickDefault_eq_firstMatchOrHead]
    | some s =>
      by_cases hs : s.isEmpty
      · simp [pick_primary_category, pyStr, hs, pickDefault_eq_firstMatchOrHead]
      · have hmem : s ∉ cat_cols := hC s rfl
        simp [pick_primary_category, pyStr, hs, hmem, pickDefault_eq_firstMatchOrHead]

/-- Witness for C10 at a concrete input: the choice "gamma" is not a
column, and the instructions mention "Beta", so the pickers return
"beta" through the instruction scan. -/
theorem c10_picker_fallback_witness :
    (pick_primary_numeric ["alpha", "beta"] (some "gamma") "Use Beta" =
      firstMatchOrHead ["alpha", "beta"] "Use Beta" ∧
     pick_primary_category ["kind"] none "Use Beta" =
      firstMatchOrHead ["kind"] "Use Beta") ∧
    firstMatchOrHead ["alpha", "beta"] "Use Beta" = some "beta" :=
  ⟨c10_picker_fallback ["alpha", "beta"] ["kind"] (some "gamma") none "Use Beta"
      (fun s hs => by cases hs; decide) (fun s hs => by cases hs),
    by decide⟩

/-- C6 (amended): the palette always has exactly `n` entries for
`n ≥ 1`; the counterexample below shows `n = 1` does not return the base
color unchanged. -/
theorem c6_palette_length (base_hex : String) (n : ℕ) (dark : Bool) (h : 0 < n) :
    (shades base_hex n dark).length = n := by
  simp [shades, shades_rgbs]

/-- Witness for C6 at a concrete input. -/
theorem c6_palette_length_witness :
    0 < 5 ∧ (shades "#3b82f6" 5 false).length = 5 :=
  ⟨by decide, c6_palette_length "#3b82f6" 5 false (by decide)⟩

/-- Counterexample to C6 as stated: for `N = 1` the source blends the
base 5 percent toward the light anchor (dark mode), so black comes back
as "#0c0c0c", not unchanged. -/
theorem c6_counterexample :
    shades "#000000" 1 true = ["#0c0c0c"] ∧ shades "#000000" 1 true ≠ ["#000000"] := by
  decide

/-- Counterexample to C7 as stated: with base "#f5f5f5" (the dark-mode
blend anchor) and `N = 2`, the two returned shades are identical, so no
luminance function is strictly monotonic over them and two consecutive
shades have equal luminance. -/
theorem c7_counterexample :
    shades "#f5f5f5" 2 true = ["#f5f5f5", "#f5f5f5"] ∧
    (shades "#f5f5f5" 2 true).getD 0 "" = (shades "#f5f5f5" 2 true).getD 1 "" := by
  decide

/-- C5: on the empty dataset (0 rows and 0 columns) `build_visuals` does
not return a result: `column_quality_summary` builds an empty frame and
its `sort_values(["missing", "unique"])` raises a `KeyError`, modelled as
the error value. -/
theorem c5_empty_dataset_raises :
    build_visuals ⟨0, []⟩ "Overview" "" [] 20 = .error "KeyError: missing" := rfl

/-- C9: the engine is deterministic and pure — repeated invocations on
the same dataset and choices return equal outputs.  In this embedding
`build_visuals` is a pure function (every pandas operation the source
uses returns a fresh object and never mutates `df`), so the hyperproperty
is the reflexivity of the result. -/
theorem c9_deterministic (df : DataFrame) (report_type instructions : String)
    (uc : UserChoices) (max_categories : ℕ) :
    build_visuals df report_type instructions uc max_categories =
      build_visuals df report_type instructions uc max_categories := rfl

lemma qualityRows_eq (df : DataFrame) (h : df.cols ≠ []) :
    qualityRows df = List.insertionSort qualityLe (df.cols.map (mkQualityRow df.nrows)) ∧
    column_quality_summary df =
      .ok (List.insertionSort qualityLe (df.cols.map (mkQualityRow df.nrows))) := by
  have hne : (df.cols.map (mkQualityRow df.nrows)).isEmpty = false := by
    cases hc : df.cols with
    | nil => exact absurd hc h
    | cons a l => simp [hc]
  constructor <;> simp [qualityRows, column_quality_summary, hne]

/-- C8: every row of the quality table satisfies the percentage law:
`missing_percent` is `round((missing / total_rows) * 100, 2)` and `0.0`
when the dataframe has no rows; every column produces such a row. -/
theorem c8_quality_percent (df : DataFrame) (c : String × ColData) (hc : c ∈ df.cols) :
    ∃ r ∈ qualityRows df, r.column = c.1 ∧ r.missing = missingCount c.2 ∧
      r.missing_percent =
        (if df.nrows = 0 then 0 else round2 ((r.missing : ℚ) / (df.nrows : ℚ) * 100)) := by
  have h : df.cols ≠ [] := by
    intro h0
    rw [h0] at hc
    simp at hc
  refine ⟨mkQualityRow df.nrows c, ?_, rfl, rfl, rfl⟩
  rw [(qualityRows_eq df h).1]
  exact (List.perm_insertionSort qualityLe _).mem_iff.mpr (List.mem_map_of_mem _ hc)

/-- Witness for C8 at a concrete input: a 0-row dataframe with one
column, whose quality row reports a missing percentage of 0. -/
theorem c8_quality_percent_witness :
    (("A", ColData.strings []) ∈ (⟨0, [("A", ColData.strings [])]⟩ : DataFrame).cols) ∧
    ∃ r ∈ qualityRows ⟨0, [("A", ColData.strings [])]⟩, r.column = "A" ∧
      r.missing = missingCount (ColData.strings []) ∧
      r.missing_percent =
        (if (0 : ℕ) = 0 then 0 else round2 ((r.missing : ℚ) / ((0 : ℕ) : ℚ) * 100)) :=
  ⟨by decide, c8_quality_percent ⟨0, [("A", ColData.strings [])]⟩ ("A", ColData.strings []) (by decide)⟩

lemma heat_notin_missingPart (q : List QualityRow) :
    VisName.category_relationship_heatmap ∉ (missingPart q).map Prod.fst := by
  unfold missingPart
  split <;> simp

lemma heat_notin_distPart (df : DataFrame) (p : Option String) :
    VisName.category_relationship_heatmap ∉ (distPart df p).map Prod.fst := by
  unfold distPart
  split <;> simp

lemma heat_notin_scatterPart (df : DataFrame) (cols : List String) (uc : UserChoices) :
    VisName.category_relationship_heatmap ∉ (scatterPart df cols uc).map Prod.fst := by
  unfold scatterPart
  split
  · split <;> simp
  · simp

lemma heat_notin_volumePart (df : DataFrame) (cats : List String) (p : Option String) (k : ℕ) :
    VisName.category_relationship_heatmap ∉ (volumePart df cats p k).map Prod.fst := by
  unfold volumePart
  split
  · simp
  · intro hx
    rw [List.map_map] at hx
    obtain ⟨col, hcol, hEq⟩ := List.mem_map.mp hx
    simp at hEq

lemma heat_notin_textPart (df : DataFrame) (tls : List String) :
    VisName.category_relationship_heatmap ∉ (textPart df tls).map Prod.fst := by
  unfold textPart
  split <;> simp

lemma heatFallback_fst_mem_iff (df : DataFrame) (cats : List String) (k : ℕ) :
    (VisName.category_relationship_heatmap ∈ (heatFallback df cats k).map Prod.fst) ↔
      2 ≤ cats.length := by
  match cats with
  | [] => simp [heatFallback]
  | [c] => simp [heatFallback]
  | c1 :: c2 :: rest => simp [heatFallback]

lemma heatPart_fst_mem_iff (df : DataFrame) (cats : List String) (uc : UserChoices) (k : ℕ) :
    (VisName.category_relationship_heatmap ∈ (heatPart df cats uc k).map Prod.fst) ↔
      (heatChosen cats uc ∨ 2 ≤ cats.length) := by
  unfold heatPart
  cases ha : pyStr (dictGet uc "compare_category_a") with
  | none =>
    simp only [heatFallback_fst_mem_iff]
    constructor
    · exact Or.inr
    · rintro (⟨a, b, ha', _⟩ | h2)
      · rw [ha] at ha'
        cases ha'
      · exact h2
  | some a =>
    cases hb : pyStr (dictGet uc "compare_category_b") with
    | none =>
      simp only [heatFallback_fst_mem_iff]
      constructor
      · exact Or.inr
      · rintro (⟨a', b, _, hb', _⟩ | h2)
        · rw [hb] at hb'
          cases hb'
        · exact h2
    | some b =>
      by_cases hcond : a ∈ cats ∧ b ∈ cats ∧ a ≠ b
      · simp only [if_pos hcond, List.map_cons, List.map_nil, List.mem_singleton]
        constructor
        · intro _
          exact Or.inl ⟨a, b, ha, hb, hcond.1, hcond.2.1, hcond.2.2⟩
        · intro _
          trivial
      · simp only [if_neg hcond, heatFallback_fst_mem_iff]
        constructor
        · exact Or.inr
        · rintro (⟨a', b', ha', hb', h1, h2, h3⟩ | h2)
          · rw [ha] at ha'
            rw [hb] at hb'
            cases ha'
            cases hb'
            exact absurd ⟨h1, h2, h3⟩ hcond
          · exact h2

lemma visualsOf_eq (df : DataFrame) (rt instr : String) (uc : UserChoices) (k : ℕ)
    (h : df.cols ≠ []) :
    visualsOf df rt instr uc k =
      (assembleOutput df instr uc k
        (List.insertionSort qualityLe (df.cols.map (mkQualityRow df.nrows)))).visuals := by
  rw [visualsOf, build_visuals, (qualityRows_eq df h).2]

lemma assembleOutput_visuals (df : DataFrame) (instr : String) (uc : UserChoices) (k : ℕ)
    (q : List QualityRow) :
    (assembleOutput df instr uc k q).visuals =
      missingPart q
        ++ distPart df (pick_primary_numeric (pick_numeric_columns df)
              (dictGet uc "primary_numeric") instr)
        ++ scatterPart df (pick_numeric_columns df) uc
        ++ volumePart df (splitCats df).2 (pick_primary_category (splitCats df).2
              (dictGet uc "category_volume_col") instr) k
        ++ heatPart df (splitCats df).2 uc k
        ++ textPart df (splitCats df).1 := rfl

/-- C3 (amended): a CategoryRelationship chart appears iff two valid and
distinct categorical columns are chosen, or — fallback branch — at least
two categorical columns exist (the source then charts the first two); in
particular, choosing the same column twice does not suppress the chart
when the dataset has two or more categorical columns. -/
theorem c3_heatmap_applicability (df : DataFrame) (rt instr : String) (uc : UserChoices)
    (k : ℕ) (h : df.cols ≠ []) :
    (VisName.category_relationship_heatmap ∈ (visualsOf df rt instr uc k).map Prod.fst) ↔
      (heatChosen (splitCats df).2 uc ∨ 2 ≤ (splitCats df).2.length) := by
  rw [visualsOf_eq df rt instr uc k h, assembleOutput_visuals]
  simp only [List.map_append, List.mem_append]
  rw [heatPart_fst_mem_iff]
  constructor
  · rintro (((((hm | hd) | hs) | hv) | hh) | ht)
    exacts [absurd hm (heat_notin_missingPart _), absurd hd (heat_notin_distPart _ _),
      absurd hs (heat_notin_scatterPart _ _ _), absurd hv (heat_notin_volumePart _ _ _ _),
      hh, absurd ht (heat_notin_textPart _ _)]
  · intro hh
    exact Or.inl (Or.inr hh)

/-- Witness for C3 at a concrete input: a valid distinct pair is chosen,
and the chart is present. -/
theorem c3_heatmap_applicability_witness :
    ((⟨1, [("B", ColData.strings [some "x"]), ("C", ColData.strings [some "u"])]⟩ : DataFrame).cols ≠ []) ∧
    ((VisName.category_relationship_heatmap ∈
        (visualsOf ⟨1, [("B", ColData.strings [some "x"]), ("C", ColData.strings [some "u"])]⟩
          "Overview" "" [("compare_category_a", some "B"), ("compare_category_b", some "C")]
          20).map Prod.fst) ↔
      (heatChosen (splitCats ⟨1, [("B", ColData.strings [some "x"]),
          ("C", ColData.strings [some "u"])]⟩).2
          [("compare_category_a", some "B"), ("compare_category_b", some "C")] ∨
        2 ≤ (splitCats ⟨1, [("B", ColData.strings [some "x"]),
          ("C", ColData.strings [some "u"])]⟩).2.length)) :=
  ⟨by decide,
    c3_heatmap_applicability ⟨1, [("B", ColData.strings [some "x"]), ("C", ColData.strings [some "u"])]⟩
      "Overview" "" [("compare_category_a", some "B"), ("compare_category_b", some "C")] 20
      (by decide)⟩

/-- Counterexample to C3 as stated: the same categorical column "B" is
passed for both sides, yet a CategoryRelationship chart still appears
(the source falls back to the first two categorical columns). -/
theorem c3_counterexample :
    VisName.category_relationship_heatmap ∈
      (visualsOf ⟨1, [("B", ColData.strings [some "x"]), ("C", ColData.strings [some "u"])]⟩
        "Overview" "" [("compare_category_a", some "B"), ("compare_category_b", some "B")]
        20).map Prod.fst := by
  decide

lemma scat_notin_missingPart (q : List QualityRow) :
    VisName.numeric_comparison_scatter ∉ (missingPart q).map Prod.fst := by
  unfold missingPart
  split <;> simp

lemma scat_notin_distPart (df : DataFrame) (p : Option String) :
    VisName.numeric_comparison_scatter ∉ (distPart df p).map Prod.fst := by
  unfold distPart
  split <;> simp

lemma scat_notin_volumePart (df : DataFrame) (cats : List String) (p : Option String) (k : ℕ) :
    VisName.numeric_comparison_scatter ∉ (volumePart df cats p k).map Prod.fst := by
  unfold volumePart
  split
  · simp
  · intro hx
    rw [List.map_map] at hx
    obtain ⟨col, hcol, hEq⟩ := List.mem_map.mp hx
    simp at hEq

lemma scat_notin_heatFallback (df : DataFrame) (cats : List String) (k : ℕ) :
    VisName.numeric_comparison_scatter ∉ (heatFallback df cats k).map Prod.fst := by
  unfold heatFallback
  split <;> simp

lemma scat_notin_heatPart (df : DataFrame) (cats : List String) (uc : UserChoices) (k : ℕ) :
    VisName.numeric_comparison_scatter ∉ (heatPart df cats uc k).map Prod.fst := by
  unfold heatPart
  split
  · split
    · simp
    · exact scat_notin_heatFallback df cats k
  · exact scat_notin_heatFallback df cats k

lemma scat_notin_textPart (df : DataFrame) (tls : List String) :
    VisName.numeric_comparison_scatter ∉ (textPart df tls).map Prod.fst := by
  unfold textPart
  split <;> simp

lemma scatterPart_fst_mem_iff (df : DataFrame) (cols : List String) (uc : UserChoices) :
    (VisName.numeric_comparison_scatter ∈ (scatterPart df cols uc).map Prod.fst) ↔
      scatterChosen cols uc := by
  unfold scatterPart
  cases hx : pyStr (dictGet uc "compare_numeric_x") with
  | none =>
    constructor
    · intro hmem
      simp at hmem
    · rintro ⟨x, y, hx', _⟩
      rw [hx] at hx'
      cases hx'
  | some x =>
    cases hy : pyStr (dictGet uc "compare_numeric_y") with
    | none =>
      constructor
      · intro hmem
        simp at hmem
      · rintro ⟨x', y, _, hy', _⟩
        rw [hy] at hy'
        cases hy'
    | some y =>
      by_cases hcond : x ∈ cols ∧ y ∈ cols ∧ x ≠ y
      · simp only [if_pos hcond, List.map_cons, List.map_nil, List.mem_singleton]
        constructor
        · intro _
          exact ⟨x, y, hx, hy, hcond.1, hcond.2.1, hcond.2.2⟩
        · intro _
          trivial
      · simp only [if_neg hcond, List.map_nil]
        constructor
        · intro hmem
          simp at hmem
        · rintro ⟨x', y', hx', hy', h1, h2, h3⟩
          rw [hx] at hx'
          rw [hy] at hy'
          cases hx'
          cases hy'
          exact absurd ⟨h1, h2, h3⟩ hcond

/-- C4 (amended): a scatter chart appears iff the recognized options
`compare_numeric_x` and `compare_numeric_y` (not `scatter_x`/`scatter_y`)
name two distinct classified numeric columns; the chart is stored under
the key `numeric_comparison_scatter`. -/
theorem c4_scatter_applicability (df : DataFrame) (rt instr : String) (uc : UserChoices)
    (k : ℕ) (h : df.cols ≠ []) :
    (VisName.numeric_comparison_scatter ∈ (visualsOf df rt instr uc k).map Prod.fst) ↔
      scatterChosen (pick_numeric_columns df) uc := by
  rw [visualsOf_eq df rt instr uc k h, assembleOutput_visuals]
  simp only [List.map_append, List.mem_append]
  rw [scatterPart_fst_mem_iff]
  constructor
  · rintro (((((hm | hd) | hs) | hv) | hh) | ht)
    exacts [absurd hm (scat_notin_missingPart _), absurd hd (scat_notin_distPart _ _),
      hs, absurd hv (scat_notin_volumePart _ _ _ _), absurd hh (scat_notin_heatPart _ _ _ _),
      absurd ht (scat_notin_textPart _ _)]
  · intro hs
    exact Or.inl (Or.inl (Or.inl (Or.inr hs)))

/-- Witness for C4 at a concrete input: with the recognized keys set to
two distinct numeric columns the chart is present. -/
theorem c4_scatter_applicability_witness :
    ((⟨1, [("A1", ColData.numeric [some 1]), ("A2", ColData.numeric [some 2])]⟩ : DataFrame).cols ≠ []) ∧
    ((VisName.numeric_comparison_scatter ∈
        (visualsOf ⟨1, [("A1", ColData.numeric [some 1]), ("A2", ColData.numeric [some 2])]⟩
          "Overview" "" [("compare_numeric_x", some "A1"), ("compare_numeric_y", some "A2")]
          20).map Prod.fst) ↔
      scatterChosen
        (pick_numeric_columns ⟨1, [("A1", ColData.numeric [some 1]), ("A2", ColData.numeric [some 2])]⟩)
        [("compare_numeric_x", some "A1"), ("compare_numeric_y", some "A2")]) :=
  ⟨by decide,
    c4_scatter_applicability ⟨1, [("A1", ColData.numeric [some 1]), ("A2", ColData.numeric [some 2])]⟩
      "Overview" "" [("compare_numeric_x", some "A1"), ("compare_numeric_y", some "A2")] 20
      (by decide)⟩

/-- Counterexample to C4 as stated: the options `scatter_x`/`scatter_y`
name two distinct numeric columns, yet no scatter chart appears — the
source only recognizes `compare_numeric_x`/`compare_numeric_y`. -/
theorem c4_counterexample :
    VisName.numeric_comparison_scatter ∉
      (visualsOf ⟨1, [("A1", ColData.numeric [some 1]), ("A2", ColData.numeric [some 2])]⟩
        "Overview" "" [("scatter_x", some "A1"), ("scatter_y", some "A2")] 20).map Prod.fst := by
  decide

lemma listSumAdd {α : Type} (l : List α) (f g : α → ℕ) :
    (l.map (fun x => f x + g x)).sum = (l.map f).sum + (l.map g).sum := by
  induction l with
  | nil => rfl
  | cons a t ih =>
    simp only [List.map_cons, List.sum_cons, ih]
    omega

lemma sum_indicator_zero (x : String) (t : List String) (hx : x ∉ t) :
    (t.map (fun c => if x = c then (1 : ℕ) else 0)).sum = 0 := by
  induction t with
  | nil => rfl
  | cons a s ih =>
    have hxa : x ≠ a := fun h => hx (h ▸ List.mem_cons_self a s)
    simp [hxa, ih (fun h => hx (List.mem_cons_of_mem a h))]

lemma sum_eq_indicator (x : String) (C : List String) (hC : C.Nodup) :
    (C.map (fun c => if x = c then (1 : ℕ) else 0)).sum = if x ∈ C then 1 else 0 := by
  induction C with
  | nil => simp
  | cons a t ih =>
    have hat : a ∉ t := (List.nodup_cons.mp hC).1
    have ht : t.Nodup := (List.nodup_cons.mp hC).2
    by_cases hxa : x = a
    · subst hxa
      simp [sum_indicator_zero x t hat]
    · simp only [List.map_cons, List.sum_cons, if_neg hxa, List.mem_cons]
      rw [ih ht]
      by_cases hxt : x ∈ t <;> simp [hxt, hxa]

lemma sum2_indicator (p : String × String) (R C : List String) (hR : R.Nodup) (hC : C.Nodup)
    (h1 : p.1 ∈ R) (h2 : p.2 ∈ C) :
    (R.map (fun r =>
      (C.map (fun c => if p.1 = r ∧ p.2 = c then (1 : ℕ) else 0)).sum)).sum = 1 := by
  have inner : ∀ r : String,
      (C.map (fun c => if p.1 = r ∧ p.2 = c then (1 : ℕ) else 0)).sum =
        if p.1 = r then 1 else 0 := by
    intro r
    by_cases hr : p.1 = r
    · simp only [hr, true_and]
      rw [sum_eq_indicator p.2 C hC, if_pos h2]
      simp
    · simp [hr]
  simp only [inner]
  rw [sum_eq_indicator p.1 R hR, if_pos h1]

lemma crosstab_total (pairs : List (String × String)) (R C : List String)
    (hR : R.Nodup) (hC : C.Nodup)
    (hmem : ∀ p ∈ pairs, p.1 ∈ R ∧ p.2 ∈ C) :
    (R.map (fun la => (C.map (fun lb =>
        pairs.countP (fun x => x.1 == la && x.2 == lb))).sum)).sum = pairs.length := by
  induction pairs with
  | nil => simp
  | cons p t ih =>
    have hpt : ∀ q ∈ t, q.1 ∈ R ∧ q.2 ∈ C := fun q hq => hmem q (List.mem_cons_of_mem p hq)
    have hp := hmem p (List.mem_cons_self p t)
    simp only [List.countP_cons, listSumAdd, Bool.and_eq_true, beq_iff_eq]
    rw [ih hpt, sum2_indicator p R C hR hC hp.1 hp.2, List.length_cons]

lemma sortLabels_mem {l : List String} {x : String} (h : x ∈ sortLabels l) : x ∈ l :=
  (List.perm_insertionSort strLe l).mem_iff.mp h

/-- C1 (amended): in the CategoryRelationship transform, a value outside
its column's top-`max_categories` window is not dropped — it is replaced
by the "Other" bucket.  Consequently every row/column label is a top-k
value or "Other", and the cross-tab's grand total equals the full number
of rows: no observation is lost. -/
theorem c1_heatmap_other_bucket (a_raw b_raw : List (Option String)) (k : ℕ)
    (hlen : a_raw.length = b_raw.length) :
    (∀ l ∈ (categorical_relationship_heatmap a_raw b_raw k).rowLabels,
        l ∈ ((value_counts (fillna_missing a_raw)).take k).map Prod.fst ∨ l = "Other") ∧
    (∀ l ∈ (categorical_relationship_heatmap a_raw b_raw k).colLabels,
        l ∈ ((value_counts (fillna_missing b_raw)).take k).map Prod.fst ∨ l = "Other") ∧
    ((categorical_relationship_heatmap a_raw b_raw k).cells.map (fun row => row.sum)).sum
        = a_raw.length := by
  unfold categorical_relationship_heatmap crosstab
  simp only
  set a := fillna_missing a_raw with ha
  set b := fillna_missing b_raw with hb
  set top_a := ((value_counts a).take k).map Prod.fst with htopa
  set top_b := ((value_counts b).take k).map Prod.fst with htopb
  set af := a.map (fun v => if v ∈ top_a then v else "Other") with haf
  set bf := b.map (fun v => if v ∈ top_b then v else "Other") with hbf
  set pairs := af.zip bf with hpairs
  have hlaf : af.length = a_raw.length := by simp [haf, ha, fillna_missing]
  have hlbf : bf.length = b_raw.length := by simp [hbf, hb, fillna_missing]
  have hfst : pairs.map Prod.fst = af := by
    apply List.map_fst_zip
    rw [hlaf, hlbf, hlen]
  have hsnd : pairs.map Prod.snd = bf := by
    apply List.map_snd_zip
    rw [hlaf, hlbf, hlen]
  refine ⟨?_, ?_, ?_⟩
  · intro l hl
    have h2 : l ∈ af := by
      rw [← hfst]
      exact List.mem_dedup.mp (sortLabels_mem hl)
    obtain ⟨v, hv, hEq⟩ := List.mem_map.mp h2
    by_cases hvt : v ∈ top_a
    · rw [if_pos hvt] at hEq
      exact Or.inl (hEq ▸ hvt)
    · rw [if_neg hvt] at hEq
      exact Or.inr hEq.symm
  · intro l hl
    have h2 : l ∈ bf := by
      rw [← hsnd]
      exact List.mem_dedup.mp (sortLabels_mem hl)
    obtain ⟨v, hv, hEq⟩ := List.mem_map.mp h2
    by_cases hvt : v ∈ top_b
    · rw [if_pos hvt] at hEq
      exact Or.inl (hEq ▸ hvt)
    · rw [if_neg hvt] at hEq
      exact Or.inr hEq.symm
  · rw [List.map_map]
    have hinner : ∀ la : String,
        ((sortLabels (pairs.map Prod.snd).dedup).map
          (fun lb => pairs.countP (fun p => p.1 == la && p.2 == lb))).sum =
        (((pairs.map Prod.snd).dedup).map
          (fun lb => pairs.countP (fun p => p.1 == la && p.2 == lb))).sum := by
      intro la
      exact ((List.perm_insertionSort strLe _).map _).sum_eq
    have houter :
        ((sortLabels (pairs.map Prod.fst).dedup).map (fun la =>
          (((pairs.map Prod.snd).dedup).map
            (fun lb => pairs.countP (fun p => p.1 == la && p.2 == lb))).sum)).sum =
        (((pairs.map Prod.fst).dedup).map (fun la =>
          (((pairs.map Prod.snd).dedup).map
            (fun lb => pairs.countP (fun p => p.1 == la && p.2 == lb))).sum)).sum :=
      ((List.perm_insertionSort strLe _).map _).sum_eq
    have hcomp : (Function.comp (fun row : List ℕ => row.sum) (fun la =>
        ((sortLabels (pairs.map Prod.snd).dedup).map
          (fun lb => pairs.countP (fun p => p.1 == la && p.2 == lb))))) = (fun la =>
        (((pairs.map Prod.snd).dedup).map
          (fun lb => pairs.countP (fun p => p.1 == la && p.2 == lb))).sum) := by
      funext la
      exact hinner la
    rw [hcomp, houter]
    rw [crosstab_total pairs _ _ (List.nodup_dedup _) (List.nodup_dedup _)
      (fun p hp => ⟨List.mem_dedup.mpr (List.mem_map_of_mem Prod.fst hp),
        List.mem_dedup.mpr (List.mem_map_of_mem Prod.snd hp)⟩)]
    rw [hpairs, List.length_zip, hlaf, hlbf, hlen, min_self]

/-- Witness for C1 at a concrete input (equal-length columns). -/
theorem c1_heatmap_other_bucket_witness :
    (([some "x", some "x", some "y"] : List (Option String)).length =
      ([some "u", some "u", some "v"] : List (Option String)).length) ∧
    ((∀ l ∈ (categorical_relationship_heatmap [some "x", some "x", some "y"]
          [some "u", some "u", some "v"] 1).rowLabels,
        l ∈ ((value_counts (fillna_missing [some "x", some "x", some "y"])).take 1).map Prod.fst ∨
          l = "Other") ∧
     (∀ l ∈ (categorical_relationship_heatmap [some "x", some "x", some "y"]
          [some "u", some "u", some "v"] 1).colLabels,
        l ∈ ((value_counts (fillna_missing [some "u", some "u", some "v"])).take 1).map Prod.fst ∨
          l = "Other") ∧
     ((categorical_relationship_heatmap [some "x", some "x", some "y"]
          [some "u", some "u", some "v"] 1).cells.map (fun row => row.sum)).sum =
        ([some "x", some "x", some "y"] : List (Option String)).length) :=
  ⟨by decide,
    c1_heatmap_other_bucket [some "x", some "x", some "y"] [some "u", some "u", some "v"] 1
      (by decide)⟩

/-- Counterexample to C1 as stated: with `max_categories = 1` the
out-of-window values are not dropped — the cross-tab has an "Other" row
and column (holding the third observation), and "Other" is not a top-1
value of the first column, so the labels are not only top-k values. -/
theorem c1_counterexample :
    categorical_relationship_heatmap [some "x", some "x", some "y"]
        [some "u", some "u", some "v"] 1 =
      ⟨["Other", "x"], ["Other", "u"], [[1, 0], [0, 2]]⟩ ∧
    "Other" ∉ ((value_counts (fillna_missing [some "x", some "x", some "y"])).take 1).map Prod.fst := by
  decide

lemma find?_name (l : List (String × ColData)) (hnd : (l.map Prod.fst).Nodup)
    {c : String} {d : ColData} (h : (c, d) ∈ l) :
    l.find? (fun x => x.1 == c) = some (c, d) := by
  induction l with
  | nil => cases h
  | cons a t ih =>
    rcases List.mem_cons.mp h with heq | ht
    · subst heq
      simp [List.find?]
    · have hne : a.1 ≠ c := by
        intro he
        have : c ∈ t.map Prod.fst := by
          have := List.mem_map_of_mem Prod.fst ht
          simpa using this
        exact (List.nodup_cons.mp hnd).1 (he ▸ this)
      have hbf : (a.1 == c) = false := by
        simp [hne]
      rw [List.find?_cons_of_neg _ (by simp [hbf])]
      exact ih (List.nodup_cons.mp hnd).2 ht

lemma getStrVals_length (df : DataFrame) (hwf : df.WF) (c : String)
    (hc : c ∈ pick_non_numeric_columns df) : (getStrVals df c).length = df.nrows := by
  obtain ⟨⟨name, d⟩, hmem, hfm⟩ := List.mem_filterMap.mp hc
  cases d with
  | numeric v => simp at hfm
  | strings v =>
    simp only [Option.some.injEq] at hfm
    rw [hfm] at hmem
    have hfind : getCol df c = some (.strings v) := by
      unfold getCol
      rw [find?_name df.cols hwf.1 hmem]
      rfl
    have hsz := hwf.2 _ hmem
    simp only [colSize] at hsz
    simp [getStrVals, hfind, hsz]

lemma cat_cols_sub (df : DataFrame) {c : String} (hc : c ∈ SpecModel.cat_cols df) :
    c ∈ pick_non_numeric_columns df := by
  unfold SpecModel.cat_cols splitCats at hc
  rw [List.partition_eq_filter_filter] at hc
  exact List.mem_of_mem_filter hc

lemma radial_slices_isSome (df : DataFrame) (ch : SpecModel.Choices) (k : ℕ) :
    (SpecModel.radial_slices df ch k).isSome = true ↔ SpecModel.radialApplicable df ch := by
  unfold SpecModel.radial_slices SpecModel.radialApplicable
  cases hcol : ch.radial_category_col with
  | none => simp
  | some c =>
    by_cases hin : c ∈ SpecModel.cat_cols df
    · by_cases hm : ch.radial_mode = "count"
      · simp [hm, hin]
      · by_cases hs : ch.radial_mode = "sum"
        · cases hv : ch.radial_value_col with
          | none => simp [hs, hm, hin, hv]
          | some v =>
            by_cases hvn : v ∈ pick_numeric_columns df
            · simp [hs, hm, hin, hv, hvn]
            · simp [hs, hm, hin, hv, hvn]
        · simp [hm, hs, hin]
    · simp [hin]

lemma donut_notin_sHist (df : DataFrame) (ch : SpecModel.Choices) :
    "radial_donut" ∉ (SpecModel.sHist df ch).map Prod.fst := by
  unfold SpecModel.sHist
  cases SpecModel.sPrimary df ch <;> simp

lemma donut_notin_sScat (df : DataFrame) (ch : SpecModel.Choices) :
    "radial_donut" ∉ (SpecModel.sScat df ch).map Prod.fst := by
  unfold SpecModel.sScat
  split
  · split <;> simp
  · simp

lemma donut_notin_sVol (df : DataFrame) (ch : SpecModel.Choices) (k : ℕ) :
    "radial_donut" ∉ (SpecModel.sVol df ch k).map Prod.fst := by
  unfold SpecModel.sVol
  split
  · split <;> simp
  · simp

lemma donut_notin_sHeat (df : DataFrame) (ch : SpecModel.Choices) (k : ℕ) :
    "radial_donut" ∉ (SpecModel.sHeat df ch k).map Prod.fst := by
  unfold SpecModel.sHeat
  split
  · split <;> simp
  · simp

lemma donut_mem_sRadial (df : DataFrame) (ch : SpecModel.Choices) (k : ℕ) :
    ("radial_donut" ∈ (SpecModel.sRadial df ch k).map Prod.fst) ↔
      (SpecModel.radial_slices df ch k).isSome = true := by
  unfold SpecModel.sRadial
  cases h : SpecModel.radial_slices df ch k <;> simp

lemma select_radial_mem_iff (df : DataFrame) (ch : SpecModel.Choices) (k : ℕ) :
    ("radial_donut" ∈ (SpecModel.select df ch k).map Prod.fst) ↔
      SpecModel.radialApplicable df ch := by
  rw [← radial_slices_isSome df ch k, ← donut_mem_sRadial df ch k]
  unfold SpecModel.select
  simp only [List.map_append, List.mem_append]
  constructor
  · rintro ((((h1 | h2) | h3) | h4) | h5)
    exacts [absurd h1 (donut_notin_sHist df ch), absurd h2 (donut_notin_sScat df ch),
      absurd h3 (donut_notin_sVol df ch k), absurd h4 (donut_notin_sHeat df ch k), h5]
  · intro h5
    exact Or.inr h5

lemma find?_donut_sHist (df : DataFrame) (ch : SpecModel.Choices) :
    (SpecModel.sHist df ch).find? (fun p => p.1 == "radial_donut") = none := by
  rw [List.find?_eq_none]
  intro x hx
  unfold SpecModel.sHist at hx
  revert hx
  cases SpecModel.sPrimary df ch <;> simp_all

lemma find?_donut_sScat (df : DataFrame) (ch : SpecModel.Choices) :
    (SpecModel.sScat df ch).find? (fun p => p.1 == "radial_donut") = none := by
  rw [List.find?_eq_none]
  intro x hx
  unfold SpecModel.sScat at hx
  split at hx
  · split at hx <;> simp_all
  · simp_all

lemma find?_donut_sVol (df : DataFrame) (ch : SpecModel.Choices) (k : ℕ) :
    (SpecModel.sVol df ch k).find? (fun p => p.1 == "radial_donut") = none := by
  rw [List.find?_eq_none]
  intro x hx
  unfold SpecModel.sVol at hx
  split at hx
  · split at hx <;> simp_all
  · simp_all

lemma find?_donut_sHeat (df : DataFrame) (ch : SpecModel.Choices) (k : ℕ) :
    (SpecModel.sHeat df ch k).find? (fun p => p.1 == "radial_donut") = none := by
  rw [List.find?_eq_none]
  intro x hx
  unfold SpecModel.sHeat at hx
  split at hx
  · split at hx <;> simp_all
  · simp_all

lemma getChart_radial (df : DataFrame) (ch : SpecModel.Choices) (k : ℕ)
    (sl : List (String × ℚ)) (hsl : SpecModel.radial_slices df ch k = some sl) :
    SpecModel.getChart (SpecModel.select df ch k) "radial_donut" =
      some (SpecModel.ChartSpec.radialBreakdown sl) := by
  unfold SpecModel.getChart SpecModel.select
  rw [List.find?_append, List.find?_append, List.find?_append, List.find?_append,
    find?_donut_sHist, find?_donut_sScat, find?_donut_sVol, find?_donut_sHeat]
  unfold SpecModel.sRadial
  rw [hsl]
  simp [List.find?]

lemma radial_slices_count (df : DataFrame) (ch : SpecModel.Choices) (k : ℕ) (c : String)
    (hcol : ch.radial_category_col = some c) (hin : c ∈ SpecModel.cat_cols df)
    (hmode : ch.radial_mode = "count") (hallow : ch.radial_categories = []) :
    SpecModel.radial_slices df ch k =
      some ((List.insertionSort SpecModel.rSliceGe
        ((fillna_missing (getStrVals df c)).dedup.map (fun v =>
          (v, ((fillna_missing (getStrVals df c)).count v : ℚ))))).take k) := by
  simp [SpecModel.radial_slices, hcol, hin, hmode, hallow]

lemma count_slices_sum (s : List String) (k : ℕ) (h : s.dedup.length ≤ k) :
    (((List.insertionSort SpecModel.rSliceGe
      (s.dedup.map (fun v => (v, (s.count v : ℚ))))).take k).map Prod.snd).sum =
      (s.length : ℚ) := by
  set counts := s.dedup.map (fun v => (v, (s.count v : ℚ))) with hc
  have hlen : (List.insertionSort SpecModel.rSliceGe counts).length = counts.length :=
    (List.perm_insertionSort _ _).length_eq
  have hlen2 : counts.length = s.dedup.length := by
    rw [hc, List.length_map]
  have htake : (List.insertionSort SpecModel.rSliceGe counts).take k =
      List.insertionSort SpecModel.rSliceGe counts := by
    apply List.take_of_length_le
    rw [hlen, hlen2]
    exact h
  rw [htake, ((List.perm_insertionSort SpecModel.rSliceGe counts).map Prod.snd).sum_eq,
    hc, List.map_map]
  have hfun : (Prod.snd ∘ fun v => (v, (s.count v : ℚ))) = fun v => ((s.count v : ℕ) : ℚ) := rfl
  rw [hfun]
  have hcast : (s.dedup.map (fun v => ((s.count v : ℕ) : ℚ))).sum =
      (((s.dedup.map (fun v => s.count v)).sum : ℕ) : ℚ) := by
    rw [Nat.cast_list_sum, List.map_map]
    rfl
  rw [hcast, List.sum_map_count_dedup_eq_length]

lemma radial_slices_shape (df : DataFrame) (ch : SpecModel.Choices) (k : ℕ)
    (sl : List (String × ℚ)) (hsl : SpecModel.radial_slices df ch k = some sl) :
    ∃ base, sl = (List.insertionSort SpecModel.rSliceGe base).take k := by
  unfold SpecModel.radial_slices at hsl
  split at hsl
  · cases hsl
  · split at hsl
    · split at hsl
      · exact ⟨_, (Option.some.inj hsl).symm⟩
      · split at hsl
        · split at hsl
          · split at hsl
            · exact ⟨_, (Option.some.inj hsl).symm⟩
            · cases hsl
          · cases hsl
        · cases hsl
    · cases hsl

/-- C2 (amended, spec-modelled): the selector includes a RadialBreakdown
chart iff a categorical column is chosen via `radial_category_col` with a
valid mode (`count`, or `sum` with a valid numeric value column); the
chart is retrievable under the stable key `"radial_donut"`; in `count`
mode with no allow-list the slices sum to the row count whenever all
distinct values survive the truncation (the claim's unconditional sum law
fails under truncation — see the counterexample); and the slices are
always sorted descending by value and truncated to `max_categories`. -/
theorem c2_radial_breakdown (df : DataFrame) (ch : SpecModel.Choices) (k : ℕ) :
    (("radial_donut" ∈ (SpecModel.select df ch k).map Prod.fst) ↔
        SpecModel.radialApplicable df ch) ∧
    (∀ sl, SpecModel.radial_slices df ch k = some sl →
        SpecModel.getChart (SpecModel.select df ch k) "radial_donut" =
          some (SpecModel.ChartSpec.radialBreakdown sl)) ∧
    (∀ c sl, df.WF → ch.radial_category_col = some c → c ∈ SpecModel.cat_cols df →
        ch.radial_mode = "count" → ch.radial_categories = [] →
        (fillna_missing (getStrVals df c)).dedup.length ≤ k →
        SpecModel.radial_slices df ch k = some sl →
        (sl.map Prod.snd).sum = (df.nrows : ℚ)) ∧
    (∀ sl, SpecModel.radial_slices df ch k = some sl →
        sl.length ≤ k ∧ sl.Sorted SpecModel.rSliceGe) := by
  refine ⟨select_radial_mem_iff df ch k, getChart_radial df ch k, ?_, ?_⟩
  · intro c sl hwf hcol hin hmode hallow hdlen hsl
    rw [radial_slices_count df ch k c hcol hin hmode hallow] at hsl
    have hx := Option.some.inj hsl
    rw [← hx, count_slices_sum _ k hdlen]
    have h1 : (fillna_missing (getStrVals df c)).length = (getStrVals df c).length := by
      rw [fillna_missing, List.length_map]
    rw [h1, getStrVals_length df hwf c (cat_cols_sub df hin)]
  · intro sl hsl
    obtain ⟨base, hb⟩ := radial_slices_shape df ch k sl hsl
    subst hb
    exact ⟨List.length_take_le _ _,
      (List.sorted_insertionSort _ _).sublist (List.take_sublist _ _)⟩

/-- Witness for C2 at a concrete input: three rows with categories
`x, x, y`, mode `count`, `max_categories = 5`; the chart is applicable
and its slices sum to the row count 3. -/
theorem c2_radial_breakdown_witness :
    (("radial_donut" ∈
        (SpecModel.select ⟨3, [("B", ColData.strings [some "x", some "x", some "y"])]⟩
          ⟨none, none, none, none, none, none, some "B", [], "count", none⟩ 5).map Prod.fst) ↔
      SpecModel.radialApplicable ⟨3, [("B", ColData.strings [some "x", some "x", some "y"])]⟩
        ⟨none, none, none, none, none, none, some "B", [], "count", none⟩) ∧
    (([("x", ((2 : ℕ) : ℚ)), ("y", ((1 : ℕ) : ℚ))].map Prod.snd).sum =
      (((⟨3, [("B", ColData.strings [some "x", some "x", some "y"])]⟩ : DataFrame).nrows : ℕ) : ℚ)) := by
  refine ⟨(c2_radial_breakdown _ _ 5).1, ?_⟩
  exact (c2_radial_breakdown ⟨3, [("B", ColData.strings [some "x", some "x", some "y"])]⟩
      ⟨none, none, none, none, none, none, some "B", [], "count", none⟩ 5).2.2.1
    "B" [("x", ((2 : ℕ) : ℚ)), ("y", ((1 : ℕ) : ℚ))]
    (by decide) rfl (by decide) rfl rfl (by decide) (by decide)

/-- Counterexample to C2 as stated: with `max_categories = 1` the slices
are truncated, so they sum to 2 while the dataset has 3 rows — the
claim's "slices sum to the row count" does not hold unconditionally. -/
theorem c2_counterexample :
    SpecModel.getChart
        (SpecModel.select ⟨3, [("B", ColData.strings [some "x", some "x", some "y"])]⟩
          ⟨none, none, none, none, none, none, some "B", [], "count", none⟩ 1) "radial_donut" =
      some (SpecModel.ChartSpec.radialBreakdown [("x", ((2 : ℕ) : ℚ))]) ∧
    ¬ (([("x", ((2 : ℕ) : ℚ))].map Prod.snd).sum =
        (((⟨3, [("B", ColData.strings [some "x", some "x", some "y"])]⟩ : DataFrame).nrows : ℕ) : ℚ)) := by
  constructor
  · decide
  · simp only [List.map_cons, List.map_nil, List.sum_cons, List.sum_nil]
    norm_num

lemma tFrac_den_eq (dark : Bool) (i j n : ℕ) : (tFrac dark i n).2 = (tFrac dark j n).2 := by
  unfold tFrac
  cases dark <;> rfl

lemma tFrac_den_pos (dark : Bool) (i n : ℕ) : 0 < (tFrac dark i n).2 := by
  have h : 1 ≤ max 1 (n - 1) := le_max_left 1 (n - 1)
  unfold tFrac
  cases dark <;> simp

lemma tFrac_fst_nonneg (dark : Bool) (i n : ℕ) : 0 ≤ (tFrac dark i n).1 := by
  unfold tFrac
  cases dark <;> simp <;> omega

lemma tFrac_mono (dark : Bool) (i j n : ℕ) (hij : i ≤ j) :
    (tFrac dark i n).1 ≤ (tFrac dark j n).1 := by
  unfold tFrac
  cases dark <;> simp <;> omega

lemma tFrac_fst_le_den (dark : Bool) (i n : ℕ) (h : i < n) :
    (tFrac dark i n).1 ≤ (tFrac dark i n).2 := by
  have h1 : i ≤ max 1 (n - 1) := le_trans (by omega) (le_max_right 1 (n - 1))
  unfold tFrac
  cases dark <;> simp <;> omega

lemma hex_to_rgb_nonneg (h : String) (rgb : ℤ × ℤ × ℤ) (hp : hex_to_rgb h = some rgb) :
    0 ≤ rgb.1 ∧ 0 ≤ rgb.2.1 ∧ 0 ≤ rgb.2.2 := by
  unfold hex_to_rgb at hp
  dsimp only at hp
  split at hp
  · have hx := Option.some.inj hp
    rw [← hx]
    refine ⟨?_, ?_, ?_⟩ <;> exact Int.natCast_nonneg _
  · cases hp

lemma baseOf_nonneg (h : String) :
    0 ≤ (baseOf h).1 ∧ 0 ≤ (baseOf h).2.1 ∧ 0 ≤ (baseOf h).2.2 := by
  unfold baseOf
  cases hp : hex_to_rgb h with
  | none => exact ⟨by decide, by decide, by decide⟩
  | some rgb => exact hex_to_rgb_nonneg h rgb hp

lemma paletteStart_nonneg (base_hex : String) (dark : Bool) :
    0 ≤ (paletteStart base_hex dark).1 ∧ 0 ≤ (paletteStart base_hex dark).2.1 ∧
      0 ≤ (paletteStart base_hex dark).2.2 := by
  unfold paletteStart
  cases dark
  · norm_num
  · simpa using baseOf_nonneg base_hex

lemma paletteEnd_nonneg (base_hex : String) (dark : Bool) :
    0 ≤ (paletteEnd base_hex dark).1 ∧ 0 ≤ (paletteEnd base_hex dark).2.1 ∧
      0 ≤ (paletteEnd base_hex dark).2.2 := by
  unfold paletteEnd
  cases dark
  · simpa using baseOf_nonneg base_hex
  · norm_num

lemma shadeAt_eq (base_hex : String) (n : ℕ) (dark : Bool) (i : ℕ) (h : i < n) :
    shadeAt base_hex n dark i =
      mix (paletteStart base_hex dark) (paletteEnd base_hex dark)
        (tFrac dark i n).1 (tFrac dark i n).2 := by
  unfold shadeAt shades_rgbs paletteStart paletteEnd
  rw [List.getD_eq_getElem?_getD, List.getElem?_map, List.getElem?_range h]
  cases dark <;> rfl

lemma mixChan_mono (a b tn1 tn2 td : ℤ) (hd : 0 < td) (ha : 0 ≤ a) (hb : 0 ≤ b)
    (h0 : 0 ≤ tn1) (h12 : tn1 ≤ tn2) (h2 : tn2 ≤ td) :
    (a ≤ b → mixChan a b tn1 td ≤ mixChan a b tn2 td) ∧
    (b ≤ a → mixChan a b tn2 td ≤ mixChan a b tn1 td) := by
  have harg : ∀ tn, 0 ≤ tn → tn ≤ td → 0 ≤ a * td + (b - a) * tn := by
    intro tn h0' h1'
    nlinarith [mul_nonneg ha (sub_nonneg.mpr h1'), mul_nonneg hb h0']
  have harg1 := harg tn1 h0 (le_trans h12 h2)
  have harg2 := harg tn2 (le_trans h0 h12) h2
  constructor
  · intro hab
    unfold mixChan pyTruncFrac
    rw [if_pos harg1, if_pos harg2]
    apply Int.ediv_le_ediv hd
    nlinarith [mul_le_mul_of_nonneg_left h12 (sub_nonneg.mpr hab)]
  · intro hba
    unfold mixChan pyTruncFrac
    rw [if_pos harg1, if_pos harg2]
    apply Int.ediv_le_ediv hd
    nlinarith [mul_le_mul_of_nonpos_left h12 (sub_nonpos.mpr hba)]

/-- C7 (amended): each RGB channel of the palette moves weakly
monotonically from the start anchor toward the end anchor as the index
grows — so the palette is ordered channel-wise from light to dark (or the
reverse).  Strict monotonicity of luminance, as claimed, fails: see the
counterexample, where consecutive shades are identical. -/
theorem c7_palette_channel_monotone (base_hex : String) (n : ℕ) (dark : Bool)
    (i j : ℕ) (hij : i ≤ j) (hj : j < n) :
    (((paletteStart base_hex dark).1 ≤ (paletteEnd base_hex dark).1 →
        (shadeAt base_hex n dark i).1 ≤ (shadeAt base_hex n dark j).1) ∧
      ((paletteEnd base_hex dark).1 ≤ (paletteStart base_hex dark).1 →
        (shadeAt base_hex n dark j).1 ≤ (shadeAt base_hex n dark i).1)) ∧
    (((paletteStart base_hex dark).2.1 ≤ (paletteEnd base_hex dark).2.1 →
        (shadeAt base_hex n dark i).2.1 ≤ (shadeAt base_hex n dark j).2.1) ∧
      ((paletteEnd base_hex dark).2.1 ≤ (paletteStart base_hex dark).2.1 →
        (shadeAt base_hex n dark j).2.1 ≤ (shadeAt base_hex n dark i).2.1)) ∧
    (((paletteStart base_hex dark).2.2 ≤ (paletteEnd base_hex dark).2.2 →
        (shadeAt base_hex n dark i).2.2 ≤ (shadeAt base_hex n dark j).2.2) ∧
      ((paletteEnd base_hex dark).2.2 ≤ (paletteStart base_hex dark).2.2 →
        (shadeAt base_hex n dark j).2.2 ≤ (shadeAt base_hex n dark i).2.2)) := by
  have hi : i < n := lt_of_le_of_lt hij hj
  rw [shadeAt_eq base_hex n dark i hi, shadeAt_eq base_hex n dark j hj]
  have hden := tFrac_den_eq dark i j n
  have hdp := tFrac_den_pos dark i n
  have h0 := tFrac_fst_nonneg dark i n
  have hmono := tFrac_mono dark i j n hij
  have hle : (tFrac dark j n).1 ≤ (tFrac dark i n).2 := by
    rw [hden]
    exact tFrac_fst_le_den dark j n hj
  obtain ⟨hs1, hs2, hs3⟩ := paletteStart_nonneg base_hex dark
  obtain ⟨he1, he2, he3⟩ := paletteEnd_nonneg base_hex dark
  rw [← hden]
  unfold mix
  refine ⟨⟨?_, ?_⟩, ⟨?_, ?_⟩, ⟨?_, ?_⟩⟩
  · exact (mixChan_mono _ _ _ _ _ hdp hs1 he1 h0 hmono hle).1
  · exact (mixChan_mono _ _ _ _ _ hdp hs1 he1 h0 hmono hle).2
  · exact (mixChan_mono _ _ _ _ _ hdp hs2 he2 h0 hmono hle).1
  · exact (mixChan_mono _ _ _ _ _ hdp hs2 he2 h0 hmono hle).2
  · exact (mixChan_mono _ _ _ _ _ hdp hs3 he3 h0 hmono hle).1
  · exact (mixChan_mono _ _ _ _ _ hdp hs3 he3 h0 hmono hle).2

/-- Witness for C7 at a concrete input: base "#3b82f6" in dark mode with
three shades; the channels move monotonically toward the light anchor. -/
theorem c7_palette_channel_monotone_witness :
    (0 ≤ 2 ∧ 2 < 3) ∧
    (((paletteStart "#3b82f6" true).1 ≤ (paletteEnd "#3b82f6" true).1 →
        (shadeAt "#3b82f6" 3 true 0).1 ≤ (shadeAt "#3b82f6" 3 true 2).1) ∧
      ((paletteEnd "#3b82f6" true).1 ≤ (paletteStart "#3b82f6" true).1 →
        (shadeAt "#3b82f6" 3 true 2).1 ≤ (shadeAt "#3b82f6" 3 true 0).1)) ∧
    (((paletteStart "#3b82f6" true).2.1 ≤ (paletteEnd "#3b82f6" true).2.1 →
        (shadeAt "#3b82f6" 3 true 0).2.1 ≤ (shadeAt "#3b82f6" 3 true 2).2.1) ∧
      ((paletteEnd "#3b82f6" true).2.1 ≤ (paletteStart "#3b82f6" true).2.1 →
        (shadeAt "#3b82f6" 3 true 2).2.1 ≤ (shadeAt "#3b82f6" 3 true 0).2.1)) ∧
    (((paletteStart "#3b82f6" true).2.2 ≤ (paletteEnd "#3b82f6" true).2.2 →
        (shadeAt "#3b82f6" 3 true 0).2.2 ≤ (shadeAt "#3b82f6" 3 true 2).2.2) ∧
      ((paletteEnd "#3b82f6" true).2.2 ≤ (paletteStart "#3b82f6" true).2.2 →
        (shadeAt "#3b82f6" 3 true 2).2.2 ≤ (shadeAt "#3b82f6" 3 true 0).2.2)) :=
  ⟨⟨by decide, by decide⟩,
    c7_palette_channel_monotone "#3b82f6" 3 true 0 2 (by decide) (by decide)⟩
